import Mathlib

/-
  Shallow embedding of the object-detection service core
  (src/app/config.py, src/app/models.py, src/app/inference.py,
  src/app/main.py).

  Python floats are modelled as rationals, byte strings as lists of
  naturals, and the external collaborators (PIL image decoding and the
  YOLO model) as an explicit environment of oracle functions. The
  observable calls into those collaborators are recorded as an event
  trace, so that claims of the form "performs no decoding" or
  "the value is passed to the detector" become statements about the
  trace. Fallible Python code is embedded as Except values: a raised
  Exception-derived error is an .error result.
-/

namespace ObjDet

/-- Settings from src/app/config.py. Only the fields consumed by the
detection pipeline are carried. -/
structure Settings where
  app_name : String
  app_version : String
  model_name : String
  confidence_threshold : ℚ
  iou_threshold : ℚ
  max_file_size : ℕ
  allowed_extensions : List String
deriving DecidableEq, Repr

/-- The reference configuration values of src/app/config.py
(confidence default 0.5, IoU default 0.45, max file size 10,000,000). -/
def settings : Settings :=
  { app_name := "Object Detection API"
    app_version := "1.0.0"
    model_name := "yolov8n.pt"
    confidence_threshold := 1/2
    iou_threshold := 9/20
    max_file_size := 10000000
    allowed_extensions := ["jpg", "jpeg", "png", "bmp", "webp"] }

/-- A Python exception value (anything derived from Exception).
The constructor distinguishes the kinds the pipeline can raise. -/
inductive PyError where
  | unidentifiedImage (msg : String)
  | runtime (msg : String)
  | validation (msg : String)
  | keyErr (msg : String)
  | generic (msg : String)
deriving DecidableEq, Repr

/-- str(e) on a Python exception: the carried message. -/
def PyError.message : PyError → String
  | .unidentifiedImage msg => msg
  | .runtime msg => msg
  | .validation msg => msg
  | .keyErr msg => msg
  | .generic msg => msg

instance {ε α : Type} [DecidableEq ε] [DecidableEq α] : DecidableEq (Except ε α)
  | .error a, .error b =>
      if h : a = b then .isTrue (congrArg Except.error h)
      else .isFalse fun hc => h (Except.error.inj hc)
  | .error _, .ok _ => .isFalse fun hc => Except.noConfusion hc
  | .ok _, .error _ => .isFalse fun hc => Except.noConfusion hc
  | .ok a, .ok b =>
      if h : a = b then .isTrue (congrArg Except.ok h)
      else .isFalse fun hc => h (Except.ok.inj hc)

/-- A PIL image as far as the pipeline observes it: mode and size. -/
structure PILImage where
  mode : String
  width : ℕ
  height : ℕ
deriving DecidableEq, Repr

/-- An opaque loaded YOLO model resource; the identifier distinguishes
distinct load results. -/
structure YOLOModel where
  modelId : ℕ
deriving DecidableEq, Repr

/-- One raw bounding box from result.boxes.xyxy, float coordinates. -/
structure RawBox where
  x1 : ℚ
  y1 : ℚ
  x2 : ℚ
  y2 : ℚ
deriving DecidableEq, Repr

/-- The parallel arrays of a YOLO result.boxes object: xyxy boxes,
confidence scores and class indices (after astype to int). -/
structure YOLOBoxes where
  xyxy : List RawBox
  conf : List ℚ
  cls : List ℤ
deriving DecidableEq, Repr

/-- The single YOLO result consumed as results[0]: boxes may be absent,
and names is the class-index-to-name dictionary. -/
structure YOLOResult where
  boxes : Option YOLOBoxes
  names : List (ℤ × String)
deriving DecidableEq, Repr

/-- The external collaborators of the pipeline: PIL Image.open,
PIL convert to RGB, the YOLO forward pass, and the two wall-clock
samples taken around the model invocation. -/
structure Env where
  imageOpen : List ℕ → Except PyError PILImage
  convertRGB : PILImage → PILImage
  modelPredict : YOLOModel → PILImage → ℚ → ℚ → Except PyError YOLOResult
  startTime : ℚ
  endTime : ℚ

/-- Observable effects of one predict call: a decode of the uploaded
bytes, or an inference call with the two threshold values actually handed
to the detector. -/
inductive Event where
  | decodeCall (image_bytes : List ℕ)
  | inferCall (conf : ℚ) (iou : ℚ)
deriving DecidableEq, Repr

/-- The BoundingBox schema of src/app/models.py: four unconstrained
integer pixel coordinates. -/
structure BoundingBox where
  x_min : ℤ
  y_min : ℤ
  x_max : ℤ
  y_max : ℤ
deriving DecidableEq, Repr

/-- The Detection schema of src/app/models.py. -/
structure Detection where
  class_name : String
  confidence : ℚ
  bbox : BoundingBox
deriving DecidableEq, Repr

/-- Constructing a Detection through pydantic: the confidence field is
declared with ge 0 and le 1, so construction raises a ValidationError
when the score is out of range and otherwise returns the record. -/
def mkDetection (class_name : String) (confidence : ℚ) (bbox : BoundingBox) :
    Except PyError Detection :=
  if 0 ≤ confidence ∧ confidence ≤ 1 then
    .ok { class_name := class_name, confidence := confidence, bbox := bbox }
  else
    .error (.validation "confidence out of range")

/-- The PredictionResponse schema of src/app/models.py. -/
structure PredictionResponse where
  detections : List Detection
  num_detections : ℕ
  inference_time_ms : ℚ
  image_dimensions : ℕ × ℕ
  model_name : String
deriving DecidableEq, Repr

/-- Python int() applied to a float: truncation toward zero. -/
def pyInt (q : ℚ) : ℤ :=
  if 0 ≤ q then ⌊q⌋ else ⌈q⌉

/-- Round to the nearest integer, ties to even: the tie-breaking rule
of Python round(). -/
def roundHalfEven (q : ℚ) : ℤ :=
  if q - (⌊q⌋ : ℚ) < 1/2 then ⌊q⌋
  else if (1 : ℚ)/2 < q - (⌊q⌋ : ℚ) then ⌊q⌋ + 1
  else if ⌊q⌋ % 2 = 0 then ⌊q⌋ else ⌊q⌋ + 1

/-- Python round(x, 2): round at two decimal places. -/
def pyRound2 (q : ℚ) : ℚ :=
  (roundHalfEven (q * 100) : ℚ) / 100

/-- The detector handle state of src/app/inference.py: the model field
(None until a successful load) and the configured model name. -/
structure ObjectDetector where
  model : Option YOLOModel
  model_name : String
deriving DecidableEq, Repr

/-- The state produced by the constructor: model None, name from
settings. -/
def ObjectDetector.init : ObjectDetector :=
  { model := none, model_name := settings.model_name }

/-- load_model of src/app/inference.py. The behaviour of the expression
YOLO(self.model_name) in this call is the loader argument: an ok value
is a successful construction and an error is a raised exception. The
try block assigns the new model and returns True; the except block
catches any Exception and returns False, leaving the state unchanged. -/
def ObjectDetector.load_model (loader : Except PyError YOLOModel)
    (s : ObjectDetector) : Bool × ObjectDetector :=
  match loader with
  | .ok m => (true, { s with model := some m })
  | .error _ => (false, s)

/-- is_loaded of src/app/inference.py: the model field is not None. -/
def ObjectDetector.is_loaded (s : ObjectDetector) : Bool :=
  s.model.isSome

/-- process_image of src/app/inference.py: Image.open on the bytes,
then convert to RGB when the mode differs from RGB. -/
def process_image (env : Env) (image_bytes : List ℕ) :
    Except PyError PILImage :=
  match env.imageOpen image_bytes with
  | .error e => .error e
  | .ok image =>
      if image.mode ≠ "RGB" then .ok (env.convertRGB image) else .ok image

/-- The dictionary lookup class_names[cls_id]: a missing key raises a
KeyError. -/
def lookupClassName (names : List (ℤ × String)) (cls_id : ℤ) :
    Except PyError String :=
  match names.lookup cls_id with
  | some n => .ok n
  | none => .error (.keyErr "class id not in names")

/-- One iteration of the loop body of _parse_results: look up the class
name, truncate the four coordinates with int(), and construct the
Detection through pydantic. -/
def parseOne (names : List (ℤ × String)) (entry : RawBox × ℚ × ℤ) :
    Except PyError Detection :=
  match lookupClassName names entry.2.2 with
  | .error e => .error e
  | .ok cname =>
      mkDetection cname entry.2.1
        { x_min := pyInt entry.1.x1
          y_min := pyInt entry.1.y1
          x_max := pyInt entry.1.x2
          y_max := pyInt entry.1.y2 }

/-- The loop of _parse_results over zip(boxes, confidences, class_ids):
a raised exception anywhere aborts the whole loop. -/
def parseLoop (names : List (ℤ × String)) :
    List (RawBox × ℚ × ℤ) → Except PyError (List Detection)
  | [] => .ok []
  | entry :: rest =>
      match parseOne names entry with
      | .error e => .error e
      | .ok det =>
          match parseLoop names rest with
          | .error e => .error e
          | .ok dets => .ok (det :: dets)

/-- _parse_results of src/app/inference.py: empty list when boxes is
None or empty, otherwise the translation loop over the zipped parallel
arrays. -/
def ObjectDetector.parse_results (result : YOLOResult) :
    Except PyError (List Detection) :=
  match result.boxes with
  | none => .ok []
  | some bx =>
      if bx.xyxy.length = 0 then .ok []
      else parseLoop result.names (bx.xyxy.zip (bx.conf.zip bx.cls))

/-- The error raised by predict when the model is not loaded. -/
def notLoadedError : PyError :=
  .runtime "Model not loaded. Call load_model() first."

/-- predict of src/app/inference.py, with its event trace. The steps of
the source in order: the is_loaded guard, substitution of the settings
defaults for None thresholds, process_image, the timed model.predict
call on results[0], _parse_results, and the response assembly with
num_detections set to the length of the translated list and the
inference time rounded to two decimals. -/
def ObjectDetector.predict (env : Env) (s : ObjectDetector)
    (image_bytes : List ℕ) (confidence_threshold : Option ℚ)
    (iou_threshold : Option ℚ) :
    Except PyError PredictionResponse × List Event :=
  match s.model with
  | none => (.error notLoadedError, [])
  | some m =>
      let confT : ℚ :=
        match confidence_threshold with
        | none => settings.confidence_threshold
        | some v => v
      let iouT : ℚ :=
        match iou_threshold with
        | none => settings.iou_threshold
        | some v => v
      match process_image env image_bytes with
      | .error e => (.error e, [.decodeCall image_bytes])
      | .ok image =>
          let evs : List Event := [.decodeCall image_bytes, .inferCall confT iouT]
          let inference_time : ℚ := (env.endTime - env.startTime) * 1000
          match env.modelPredict m image confT iouT with
          | .error e => (.error e, evs)
          | .ok result =>
              match ObjectDetector.parse_results result with
              | .error e => (.error e, evs)
              | .ok detections =>
                  (.ok { detections := detections
                         num_detections := detections.length
                         inference_time_ms := pyRound2 inference_time
                         image_dimensions := (image.width, image.height)
                         model_name := s.model_name },
                   evs)

/-- A FastAPI HTTPException as observed by the client: status code and
detail message (interpolated payloads are abbreviated to their fixed
prefix). -/
structure HTTPError where
  status_code : ℕ
  detail : String
deriving DecidableEq, Repr

/-- The uploaded file as the endpoint sees it. -/
structure UploadFile where
  filename : Option String
  content_type : Option String
  content : List ℕ
deriving DecidableEq, Repr

/-- Python str.startswith, evaluated on the character lists of the two
strings. -/
def pyStartsWith (s p : String) : Bool :=
  p.data.isPrefixOf s.data

/-- Python str.lower, evaluated characterwise. -/
def pyLower (s : String) : String :=
  String.mk (s.data.map Char.toLower)

/-- Python s.split on a dot, last element: the suffix of s after its
last dot, the whole of s when it has none. -/
def lastDotComponent (s : String) : String :=
  String.mk (s.data.foldl (fun acc c => if c = '.' then [] else acc ++ [c]) [])

/-- The extension computation of src/app/main.py line 186:
file.filename split on dots, last element, lowercased; empty string
when the filename is absent. -/
def file_extension (file : UploadFile) : String :=
  match file.filename with
  | some nm => pyLower (lastDotComponent nm)
  | none => ""

/-- The content-type gate of src/app/main.py line 180: present and
starting with the string image followed by a slash. -/
def contentTypeOk (file : UploadFile) : Bool :=
  match file.content_type with
  | none => false
  | some ct => pyStartsWith ct "image/"

/-- predict_objects of src/app/main.py, after FastAPI parameter
parsing: the is_loaded guard mapping to 503, the content-type and
extension gates mapping to 400, the size gate mapping to 413, the call
into ObjectDetector.predict, and the except-Exception clause mapping
any raised error to a generic 500 with the str of the exception. -/
def predict_objects (env : Env) (det : ObjectDetector) (file : UploadFile)
    (confidence : Option ℚ) (iou_threshold : Option ℚ) :
    Except HTTPError PredictionResponse × List Event :=
  if det.is_loaded = false then
    (.error { status_code := 503, detail := "Model not loaded. Service unavailable." }, [])
  else if contentTypeOk file = false then
    (.error { status_code := 400, detail := "File must be an image." }, [])
  else if (settings.allowed_extensions.contains (file_extension file)) = false then
    (.error { status_code := 400, detail := "File type not allowed." }, [])
  else
    let image_bytes := file.content
    if settings.max_file_size < image_bytes.length then
      (.error { status_code := 413, detail := "File too large." }, [])
    else
      match det.predict env image_bytes confidence iou_threshold with
      | (.ok result, evs) => (.ok result, evs)
      | (.error e, evs) =>
          (.error { status_code := 500, detail := "Prediction failed: " ++ e.message }, evs)

/-- The declared FastAPI Query constraint of src/app/main.py lines
141 to 146: a provided threshold must satisfy ge 0 and le 1; an absent
value passes. -/
def queryParamOk (v : Option ℚ) : Bool :=
  match v with
  | none => true
  | some x => decide (0 ≤ x) && decide (x ≤ 1)

/-- The full predict endpoint as a client reaches it: FastAPI validates
the declared query constraints before the handler runs and answers 422
on violation (documented FastAPI behaviour for Query ge and le);
otherwise the handler predict_objects runs. -/
def predictEndpoint (env : Env) (det : ObjectDetector) (file : UploadFile)
    (confidence : Option ℚ) (iou_threshold : Option ℚ) :
    Except HTTPError PredictionResponse × List Event :=
  if queryParamOk confidence && queryParamOk iou_threshold then
    predict_objects env det file confidence iou_threshold
  else
    (.error { status_code := 422, detail := "validation error" }, [])

/-
  Concrete fixtures used by witnesses and counterexamples.
-/

/-- A decoded 640 by 480 RGB image. -/
def pngImage : PILImage :=
  { mode := "RGB", width := 640, height := 480 }

/-- An environment whose image library rejects every byte string, as
PIL does on bytes that are not a valid image. -/
def envBadBytes : Env :=
  { imageOpen := fun _ => .error (.unidentifiedImage "cannot identify image file")
    convertRGB := fun img => { img with mode := "RGB" }
    modelPredict := fun _ _ _ _ => .ok { boxes := none, names := [] }
    startTime := 0
    endTime := 0 }

/-- An environment where decoding succeeds with a fixed image, the
detector finds nothing, and the timer samples are 0 and 3/2 seconds. -/
def envOk : Env :=
  { imageOpen := fun _ => .ok pngImage
    convertRGB := fun img => { img with mode := "RGB" }
    modelPredict := fun _ _ _ _ => .ok { boxes := none, names := [] }
    startTime := 0
    endTime := 3/2 }

/-- A handle state holding a loaded model. -/
def sLoaded : ObjectDetector :=
  { model := some { modelId := 1 }, model_name := "yolov8n.pt" }

/-- An upload with a png name, image content type and three bytes of
content. -/
def pngFile : UploadFile :=
  { filename := some "test.png", content_type := some "image/png", content := [110, 111, 116] }

/-- Raw parallel arrays holding one candidate box with a fractional
x coordinate. -/
def singleBoxes : YOLOBoxes :=
  { xyxy := [{ x1 := 27/10, y1 := 0, x2 := 100, y2 := 50 }]
    conf := [1/2]
    cls := [0] }

/-- A raw result holding the single candidate above and one class
name. -/
def singleRaw : YOLOResult :=
  { boxes := some singleBoxes, names := [(0, "person")] }

attribute [local semireducible] Rat.mul Rat.add Rat.sub Rat.inv

/-
  Helper lemmas shared by the claim theorems.
-/

/-- A handle is not loaded exactly when its model field is None. -/
lemma is_loaded_false_iff (s : ObjectDetector) :
    s.is_loaded = false ↔ s.model = none := by
  cases h : s.model <;> simp [ObjectDetector.is_loaded, h]

/-- A handle is loaded exactly when its model field holds a value. -/
lemma is_loaded_true_iff (s : ObjectDetector) :
    s.is_loaded = true ↔ ∃ m, s.model = some m := by
  cases h : s.model <;> simp [ObjectDetector.is_loaded, h]

/-- Truncation toward zero is monotone. -/
lemma pyInt_mono {a b : ℚ} (h : a ≤ b) : pyInt a ≤ pyInt b := by
  unfold pyInt
  by_cases ha : 0 ≤ a
  · rw [if_pos ha, if_pos (le_trans ha h)]
    exact Int.floor_le_floor h
  · rw [if_neg ha]
    by_cases hb : 0 ≤ b
    · rw [if_pos hb]
      have h1 : Int.ceil a ≤ 0 := by
        have : a ≤ 0 := le_of_not_le ha
        calc Int.ceil a ≤ Int.ceil (0:ℚ) := Int.ceil_le_ceil this
        _ = 0 := by simp
      have h2 : (0:ℤ) ≤ Int.floor b := Int.floor_nonneg.mpr hb
      omega
    · rw [if_neg hb]
      exact Int.ceil_le_ceil h

/-- Half-even rounding of a nonnegative rational is nonnegative. -/
lemma roundHalfEven_nonneg {q : ℚ} (h : 0 ≤ q) : 0 ≤ roundHalfEven q := by
  have hf : (0:ℤ) ≤ ⌊q⌋ := Int.floor_nonneg.mpr h
  unfold roundHalfEven
  split
  · exact hf
  · split
    · omega
    · split <;> omega

/-- Rounding a nonnegative rational at two decimals is nonnegative. -/
lemma pyRound2_nonneg {q : ℚ} (h : 0 ≤ q) : 0 ≤ pyRound2 q := by
  unfold pyRound2
  have h1 : (0:ℚ) ≤ (roundHalfEven (q * 100) : ℚ) := by
    exact_mod_cast roundHalfEven_nonneg (by positivity)
  positivity

/-- Inversion of a successful Detection construction in the translator
loop: the confidence is the raw score, validated to lie in the unit
interval, and the box is the truncation of the raw coordinates. -/
lemma parseOne_ok_inv (names : List (ℤ × String)) (e : RawBox × ℚ × ℤ)
    (d : Detection) (h : parseOne names e = .ok d) :
    0 ≤ d.confidence ∧ d.confidence ≤ 1 ∧
    d.bbox = { x_min := pyInt e.1.x1, y_min := pyInt e.1.y1,
               x_max := pyInt e.1.x2, y_max := pyInt e.1.y2 } := by
  unfold parseOne at h
  split at h
  · exact absurd h (by simp)
  · unfold mkDetection at h
    split at h
    · rename_i hrange
      simp only [Except.ok.injEq] at h
      subst h
      exact ⟨hrange.1, hrange.2, rfl⟩
    · exact absurd h (by simp)

/-- Every Detection produced by the translator loop comes from some
entry of the zipped raw arrays. -/
lemma parseLoop_ok_mem (names : List (ℤ × String)) :
    ∀ (l : List (RawBox × ℚ × ℤ)) (dets : List Detection),
      parseLoop names l = .ok dets →
      ∀ d ∈ dets, ∃ e ∈ l, parseOne names e = .ok d := by
  intro l
  induction l with
  | nil =>
      intro dets h d hd
      unfold parseLoop at h
      simp only [Except.ok.injEq] at h
      subst h
      exact absurd hd (by simp)
  | cons e rest ih =>
      intro dets h d hd
      unfold parseLoop at h
      split at h
      · exact absurd h (by simp)
      · rename_i det hdet
        split at h
        · exact absurd h (by simp)
        · rename_i dets0 hdets0
          simp only [Except.ok.injEq] at h
          subst h
          rcases List.mem_cons.mp hd with hd | hd
          · exact ⟨e, by simp, hd ▸ hdet⟩
          · rcases ih dets0 hdets0 d hd with ⟨e1, he1, hp⟩
            exact ⟨e1, by simp [he1], hp⟩

/-- The translator loop is the monadic map of the single-entry
translation over the zipped raw arrays. -/
lemma parseLoop_eq_mapM (names : List (ℤ × String)) :
    ∀ (l : List (RawBox × ℚ × ℤ)),
      parseLoop names l = l.mapM (parseOne names) := by
  intro l
  induction l with
  | nil => rfl
  | cons e rest ih =>
      rw [List.mapM_cons]
      unfold parseLoop
      rw [ih]
      cases parseOne names e <;> cases hr : rest.mapM (parseOne names) <;>
        simp [Except.bind, Bind.bind, hr, Pure.pure, Except.pure]

/-
  Claim theorems.
-/

/-- Claim C1: when the detector handle is not loaded, the core predict
fails with the not-loaded error for every byte string and every pair of
threshold arguments, records no decode and no inference event, and
yields no response; the HTTP boundary reflects the condition as the 503
service-unavailable error whenever the declared query validation
passes. -/
theorem predict_unloaded_rejects (env : Env) (s : ObjectDetector)
    (image_bytes : List ℕ) (ct it : Option ℚ) (file : UploadFile)
    (h : s.is_loaded = false) :
    ObjectDetector.predict env s image_bytes ct it = (.error notLoadedError, []) ∧
    (queryParamOk ct = true → queryParamOk it = true →
      predictEndpoint env s file ct it =
        (.error { status_code := 503, detail := "Model not loaded. Service unavailable." }, [])) := by
  have hm : s.model = none := (is_loaded_false_iff s).mp h
  constructor
  · unfold ObjectDetector.predict
    rw [hm]
  · intro h1 h2
    unfold predictEndpoint predict_objects
    rw [h1, h2, h]
    simp

/-- Witness for C1 at a concrete unloaded handle, with an explicit
threshold in one call and absent thresholds in the other. -/
theorem predict_unloaded_rejects_witness :
    ObjectDetector.predict envOk ObjectDetector.init [0] (some (3/2)) none =
      (.error notLoadedError, []) ∧
    predictEndpoint envOk ObjectDetector.init pngFile none none =
      (.error { status_code := 503, detail := "Model not loaded. Service unavailable." }, []) :=
  ⟨(predict_unloaded_rejects envOk ObjectDetector.init [0] (some (3/2)) none pngFile rfl).1,
   (predict_unloaded_rejects envOk ObjectDetector.init [0] none none pngFile rfl).2 rfl rfl⟩

/-- Counterexample to claim C2 as stated: the detection service predict,
called while loaded on a decodable image with confidence threshold
101/100, does not fail with any invalid-parameter error: it succeeds,
and the event trace shows the out-of-range value handed unchanged to
the detector. -/
theorem threshold_validation_cex :
    ObjectDetector.predict envOk sLoaded [0] (some (101/100)) none =
      (.ok { detections := [], num_detections := 0, inference_time_ms := 1500,
             image_dimensions := (640, 480), model_name := "yolov8n.pt" },
       [Event.decodeCall [0], Event.inferCall (101/100) (9/20)]) ∧
    ¬ ((101:ℚ)/100 ≤ 1) := by
  exact ⟨by decide, by decide⟩

/-- Claim C2 amended: the range validation of the thresholds lives in
the declared query constraints of the HTTP boundary, not in the
detection service itself. A request with a provided threshold outside
the unit interval is answered with the 422 invalid-parameter error
before the handler runs, with an empty event trace, so the out-of-range
value is neither clamped nor passed to the detector. -/
theorem endpoint_invalid_threshold_rejected (env : Env) (det : ObjectDetector)
    (file : UploadFile) (c i : Option ℚ)
    (h : queryParamOk c = false ∨ queryParamOk i = false) :
    predictEndpoint env det file c i =
      (.error { status_code := 422, detail := "validation error" }, []) := by
  unfold predictEndpoint
  rcases h with h | h <;> rw [h] <;> simp

/-- Witness for the amended C2 at confidence threshold 101/100. -/
theorem endpoint_invalid_threshold_rejected_witness :
    (queryParamOk (some ((101:ℚ)/100)) = false ∨ queryParamOk (none : Option ℚ) = false) ∧
    predictEndpoint envOk sLoaded pngFile (some ((101:ℚ)/100)) none =
      (.error { status_code := 422, detail := "validation error" }, []) :=
  ⟨Or.inl (by decide),
   endpoint_invalid_threshold_rejected envOk sLoaded pngFile (some ((101:ℚ)/100)) none
     (Or.inl (by decide))⟩

/-- Claim C3: every response a successful predict returns carries
num_detections equal to the length of its detections list. -/
theorem num_detections_eq_length (env : Env) (s : ObjectDetector)
    (image_bytes : List ℕ) (ct it : Option ℚ) (resp : PredictionResponse)
    (evs : List Event)
    (h : ObjectDetector.predict env s image_bytes ct it = (.ok resp, evs)) :
    resp.num_detections = resp.detections.length := by
  unfold ObjectDetector.predict at h
  split at h
  · simp at h
  · dsimp only at h
    split at h
    · simp at h
    · split at h
      · simp at h
      · split at h
        · simp at h
        · simp only [Prod.mk.injEq, Except.ok.injEq] at h
          obtain ⟨h1, h2⟩ := h
          subst h1
          rfl

/-- Witness for C3 at a concrete successful prediction. -/
theorem num_detections_eq_length_witness :
    ({ detections := [], num_detections := 0, inference_time_ms := 1500,
       image_dimensions := (640, 480), model_name := "yolov8n.pt" } :
        PredictionResponse).num_detections =
    ({ detections := [], num_detections := 0, inference_time_ms := 1500,
       image_dimensions := (640, 480), model_name := "yolov8n.pt" } :
        PredictionResponse).detections.length :=
  num_detections_eq_length envOk sLoaded [0] none none _
    [Event.decodeCall [0], Event.inferCall (1/2) (9/20)] (by decide)

/-- Counterexample to claim C4 as stated: calling load_model a second
time on an already loaded handle is not a success-returning no-op. When
the loader succeeds it reloads, replacing the model resource with the
newly constructed one, and when the loader raises it returns failure
rather than success. -/
theorem load_model_reload_cex :
    (ObjectDetector.load_model (.ok { modelId := 2 }) sLoaded).2 ≠ sLoaded ∧
    (ObjectDetector.load_model (.ok { modelId := 2 }) sLoaded).2.model =
      some { modelId := 2 } ∧
    (ObjectDetector.load_model (.error (.generic "disk error")) sLoaded).1 = false :=
  ⟨by decide, by decide, by decide⟩

/-- Claim C4 amended: load_model has no already-loaded guard; every
call re-invokes the model loader. Called on an already loaded handle it
returns True and replaces the model when the loader succeeds, and
returns False leaving the previous state intact when the loader raises;
in both cases the handle remains loaded. The load-once discipline comes
from the startup hook invoking load_model a single time, not from
load_model itself. -/
theorem load_model_when_loaded (loader : Except PyError YOLOModel)
    (s : ObjectDetector) (h : s.is_loaded = true) :
    (ObjectDetector.load_model loader s).2.is_loaded = true ∧
    ((ObjectDetector.load_model loader s).1 = true ↔ ∃ m, loader = .ok m) ∧
    (∀ m, loader = .ok m →
      (ObjectDetector.load_model loader s).2.model = some m) ∧
    (∀ e, loader = .error e → (ObjectDetector.load_model loader s).2 = s) := by
  cases loader with
  | ok m =>
      refine ⟨by simp [ObjectDetector.load_model, ObjectDetector.is_loaded], ?_, ?_, ?_⟩
      · simp [ObjectDetector.load_model]
      · intro m1 hm1
        simp only [Except.ok.injEq] at hm1
        subst hm1
        rfl
      · intro e he
        exact absurd he (by simp)
  | error e =>
      refine ⟨?_, ?_, ?_, ?_⟩
      · simpa [ObjectDetector.load_model] using h
      · simp [ObjectDetector.load_model]
      · intro m1 hm1
        exact absurd hm1 (by simp)
      · intro e1 _
        rfl

/-- Witness for the amended C4 at a loaded handle and a succeeding
loader. -/
theorem load_model_when_loaded_witness :
    (ObjectDetector.load_model (.ok { modelId := 2 }) sLoaded).2.is_loaded = true ∧
    (ObjectDetector.load_model (.ok { modelId := 2 }) sLoaded).2.model =
      some { modelId := 2 } :=
  ⟨(load_model_when_loaded (.ok { modelId := 2 }) sLoaded rfl).1,
   (load_model_when_loaded (.ok { modelId := 2 }) sLoaded rfl).2.2.1 { modelId := 2 } rfl⟩

/-- Counterexample to claim C5 as stated: a raw detector box with float
coordinates 10.5 and 10.9 on the x axis is translated, by truncation,
into a Detection whose bounding box has x_min equal to x_max, violating
the strict inequality the claim asserts. -/
theorem bbox_strict_cex :
    ObjectDetector.parse_results
      { boxes := some { xyxy := [{ x1 := 21/2, y1 := 5, x2 := 109/10, y2 := 8 }],
                        conf := [9/10], cls := [0] },
        names := [(0, "person")] } =
      .ok [{ class_name := "person", confidence := 9/10,
             bbox := { x_min := 10, y_min := 5, x_max := 10, y_max := 8 } }] ∧
    ¬ ((10:ℤ) < 10) :=
  ⟨by decide, by decide⟩

/-- Claim C5 amended: every Detection the translator produces has its
confidence validated into the closed unit interval by the schema, and
its bounding box satisfies the non-strict inequalities x_min le x_max
and y_min le y_max whenever the raw float coordinates are so ordered;
the strict form can fail because truncation may collapse coordinates
that differ by less than one pixel. -/
theorem detection_schema_invariants (result : YOLOResult)
    (dets : List Detection)
    (h : ObjectDetector.parse_results result = .ok dets)
    (hmono : ∀ bx, result.boxes = some bx →
      ∀ rb ∈ bx.xyxy, rb.x1 ≤ rb.x2 ∧ rb.y1 ≤ rb.y2) :
    ∀ d ∈ dets, (0 ≤ d.confidence ∧ d.confidence ≤ 1) ∧
      d.bbox.x_min ≤ d.bbox.x_max ∧ d.bbox.y_min ≤ d.bbox.y_max := by
  intro d hd
  unfold ObjectDetector.parse_results at h
  split at h
  · simp only [Except.ok.injEq] at h
    subst h
    exact absurd hd (by simp)
  · rename_i bx hb
    split at h
    · simp only [Except.ok.injEq] at h
      subst h
      exact absurd hd (by simp)
    · obtain ⟨e, he, hp⟩ := parseLoop_ok_mem result.names _ dets h d hd
      obtain ⟨rb, conf, cls⟩ := e
      obtain ⟨hc0, hc1, hbb⟩ := parseOne_ok_inv result.names (rb, conf, cls) d hp
      have hx : rb ∈ bx.xyxy := (List.of_mem_zip he).1
      obtain ⟨hx12, hy12⟩ := hmono bx hb rb hx
      refine ⟨⟨hc0, hc1⟩, ?_, ?_⟩ <;> rw [hbb]
      · exact pyInt_mono hx12
      · exact pyInt_mono hy12

/-- Witness for the amended C5 at a concrete well-ordered raw box. -/
theorem detection_schema_invariants_witness :
    ((0:ℚ) ≤ ({ class_name := "person", confidence := 1/2,
                bbox := { x_min := 0, y_min := 0, x_max := 100, y_max := 50 } } :
        Detection).confidence ∧
      ({ class_name := "person", confidence := 1/2,
         bbox := { x_min := 0, y_min := 0, x_max := 100, y_max := 50 } } :
        Detection).confidence ≤ 1) ∧
    ({ class_name := "person", confidence := 1/2,
       bbox := { x_min := 0, y_min := 0, x_max := 100, y_max := 50 } } :
      Detection).bbox.x_min ≤
      ({ class_name := "person", confidence := 1/2,
         bbox := { x_min := 0, y_min := 0, x_max := 100, y_max := 50 } } :
        Detection).bbox.x_max ∧
    ({ class_name := "person", confidence := 1/2,
       bbox := { x_min := 0, y_min := 0, x_max := 100, y_max := 50 } } :
      Detection).bbox.y_min ≤
      ({ class_name := "person", confidence := 1/2,
         bbox := { x_min := 0, y_min := 0, x_max := 100, y_max := 50 } } :
        Detection).bbox.y_max :=
  detection_schema_invariants
    { boxes := some { xyxy := [{ x1 := 0, y1 := 0, x2 := 100, y2 := 50 }],
                      conf := [1/2], cls := [0] },
      names := [(0, "person")] }
    [{ class_name := "person", confidence := 1/2,
       bbox := { x_min := 0, y_min := 0, x_max := 100, y_max := 50 } }]
    (by decide)
    (by
      intro bx hbx rb hrb
      cases hbx
      simp only [List.mem_singleton] at hrb
      subst hrb
      exact ⟨by decide, by decide⟩)
    { class_name := "person", confidence := 1/2,
      bbox := { x_min := 0, y_min := 0, x_max := 100, y_max := 50 } }
    (by simp)

/-- Claim C6: the result translator is the entrywise translation of the
zipped raw arrays in order; each translated bounding box is the int()
truncation of the raw coordinates, truncation maps a coordinate of the
form N.7 to N, truncation is toward zero on negatives, and truncation
differs from rounding to nearest. -/
theorem translator_truncation_order (result : YOLOResult) (bx : YOLOBoxes)
    (hb : result.boxes = some bx) :
    ObjectDetector.parse_results result =
      (bx.xyxy.zip (bx.conf.zip bx.cls)).mapM (parseOne result.names) ∧
    (∀ (box : RawBox) (conf : ℚ) (cls : ℤ) (d : Detection),
      parseOne result.names (box, conf, cls) = .ok d →
      d.bbox = { x_min := pyInt box.x1, y_min := pyInt box.y1,
                 x_max := pyInt box.x2, y_max := pyInt box.y2 }) ∧
    (∀ n : ℕ, pyInt ((n : ℚ) + 7/10) = n) ∧
    pyInt (27/10) = 2 ∧ pyInt (-(27/10)) = -2 ∧ round ((27:ℚ)/10) = 3 := by
  refine ⟨?_, ?_, ?_, by decide, by decide, by norm_num [round_eq]⟩
  · unfold ObjectDetector.parse_results
    rw [hb]
    show (if bx.xyxy.length = 0 then Except.ok []
          else parseLoop result.names (bx.xyxy.zip (bx.conf.zip bx.cls))) =
        (bx.xyxy.zip (bx.conf.zip bx.cls)).mapM (parseOne result.names)
    by_cases hlen : bx.xyxy.length = 0
    · rw [if_pos hlen]
      rw [List.length_eq_zero] at hlen
      rw [hlen]
      rfl
    · rw [if_neg hlen]
      exact parseLoop_eq_mapM result.names _
  · intro box conf cls d hp
    exact (parseOne_ok_inv result.names (box, conf, cls) d hp).2.2
  · intro n
    have hpos : (0:ℚ) ≤ (n : ℚ) + 7/10 := by positivity
    unfold pyInt
    rw [if_pos hpos]
    rw [Int.floor_eq_iff]
    push_cast
    constructor <;> linarith

/-- Witness for C6 at the concrete single-candidate raw result. -/
theorem translator_truncation_order_witness :
    ObjectDetector.parse_results singleRaw =
      (singleBoxes.xyxy.zip (singleBoxes.conf.zip singleBoxes.cls)).mapM
        (parseOne singleRaw.names) ∧
    pyInt (27/10) = 2 :=
  ⟨(translator_truncation_order singleRaw singleBoxes rfl).1,
   (translator_truncation_order singleRaw singleBoxes rfl).2.2.2.1⟩

/-- Counterexample to claim C7 as stated: an upload whose bytes PIL
cannot decode, sent while the model is loaded, is answered with the
generic internal 500 error produced by the catch-all except clause, not
with a client-input error; the trace shows the failure arose at the
decode step. -/
theorem decode_error_500_cex :
    predictEndpoint envBadBytes sLoaded pngFile none none =
      (.error { status_code := 500,
                detail := "Prediction failed: cannot identify image file" },
       [Event.decodeCall [110, 111, 116]]) ∧
    envBadBytes.imageOpen pngFile.content =
      .error (.unidentifiedImage "cannot identify image file") :=
  ⟨by decide, rfl⟩

/-- Claim C7 amended: for every upload whose bytes the image library
rejects, the pipeline fails during decoding, before the detector is
ever invoked (the trace holds the decode event and no inference event),
and the raised decode error is caught at the endpoint boundary and
surfaced as the generic internal 500 error rather than as a typed
client-input error; the process does not crash. -/
theorem decode_failure_mapped_500 (env : Env) (det : ObjectDetector)
    (file : UploadFile) (ct it : Option ℚ) (e : PyError)
    (hq1 : queryParamOk ct = true) (hq2 : queryParamOk it = true)
    (hl : det.is_loaded = true)
    (hctype : contentTypeOk file = true)
    (hext : settings.allowed_extensions.contains (file_extension file) = true)
    (hsize : ¬ settings.max_file_size < file.content.length)
    (hdec : env.imageOpen file.content = .error e) :
    predictEndpoint env det file ct it =
      (.error { status_code := 500,
                detail := "Prediction failed: " ++ e.message },
       [.decodeCall file.content]) := by
  obtain ⟨m, hm⟩ := (is_loaded_true_iff det).mp hl
  have hpredict : det.predict env file.content ct it =
      (.error e, [.decodeCall file.content]) := by
    unfold ObjectDetector.predict
    rw [hm]
    dsimp only
    have hpi : process_image env file.content = .error e := by
      unfold process_image
      rw [hdec]
    rw [hpi]
  unfold predictEndpoint
  rw [hq1, hq2]
  unfold predict_objects
  rw [hl, hctype, hext]
  simp [hsize, hpredict]

/-- Witness for the amended C7 at the concrete rejecting environment. -/
theorem decode_failure_mapped_500_witness :
    predictEndpoint envBadBytes sLoaded pngFile (some 1) (some 0) =
      (.error { status_code := 500,
                detail := "Prediction failed: " ++
                  (PyError.unidentifiedImage "cannot identify image file").message },
       [.decodeCall pngFile.content]) :=
  decode_failure_mapped_500 envBadBytes sLoaded pngFile (some 1) (some 0)
    (.unidentifiedImage "cannot identify image file")
    (by decide) (by decide) (by decide) (by decide) (by decide) (by decide) rfl

/-- Claim C8: a raw result with zero candidate boxes translates to the
empty list without error, and a successful predict whose detector
reported zero candidates assembles a response with empty detections,
num_detections zero, and a nonnegative inference time whenever the
second timer sample is not before the first. -/
theorem zero_candidates_response (env : Env) (s : ObjectDetector)
    (image_bytes : List ℕ) (ct it : Option ℚ) (resp : PredictionResponse)
    (evs : List Event) (result : YOLOResult)
    (hres : ∀ bx, result.boxes = some bx → bx.xyxy.length = 0)
    (hmp : ∀ m img c i, env.modelPredict m img c i = .ok result)
    (htime : env.startTime ≤ env.endTime)
    (h : ObjectDetector.predict env s image_bytes ct it = (.ok resp, evs)) :
    ObjectDetector.parse_results result = .ok [] ∧
    resp.detections = [] ∧ resp.num_detections = 0 ∧
    0 ≤ resp.inference_time_ms := by
  have hparse : ObjectDetector.parse_results result = .ok [] := by
    unfold ObjectDetector.parse_results
    split
    · rfl
    · rename_i bx hb
      rw [if_pos (hres bx hb)]
  refine ⟨hparse, ?_⟩
  unfold ObjectDetector.predict at h
  split at h
  · simp at h
  · rename_i m hm
    dsimp only at h
    split at h
    · simp at h
    · rename_i img himg
      split at h
      · rename_i e heq
        rw [hmp] at heq
        exact absurd heq (by simp)
      · rename_i result1 heq
        rw [hmp] at heq
        simp only [Except.ok.injEq] at heq
        subst heq
        split at h
        · rename_i e heq2
          rw [hparse] at heq2
          exact absurd heq2 (by simp)
        · rename_i dets heq2
          rw [hparse] at heq2
          simp only [Except.ok.injEq] at heq2
          subst heq2
          simp only [Prod.mk.injEq, Except.ok.injEq] at h
          obtain ⟨h1, h2⟩ := h
          subst h1
          refine ⟨rfl, rfl, ?_⟩
          refine pyRound2_nonneg ?_
          have hd : (0:ℚ) ≤ env.endTime - env.startTime := sub_nonneg.mpr htime
          exact mul_nonneg hd (by norm_num)

/-- Witness for C8 at the concrete environment whose detector finds
nothing. -/
theorem zero_candidates_response_witness :
    ObjectDetector.parse_results { boxes := none, names := [] } = .ok [] ∧
    ({ detections := [], num_detections := 0, inference_time_ms := 1500,
       image_dimensions := (640, 480), model_name := "yolov8n.pt" } :
        PredictionResponse).detections = [] ∧
    ({ detections := [], num_detections := 0, inference_time_ms := 1500,
       image_dimensions := (640, 480), model_name := "yolov8n.pt" } :
        PredictionResponse).num_detections = 0 ∧
    0 ≤ ({ detections := [], num_detections := 0, inference_time_ms := 1500,
           image_dimensions := (640, 480), model_name := "yolov8n.pt" } :
        PredictionResponse).inference_time_ms :=
  zero_candidates_response envOk sLoaded [0] none none _
    [Event.decodeCall [0], Event.inferCall (1/2) (9/20)]
    { boxes := none, names := [] }
    (fun bx hbx => nomatch hbx) (fun _ _ _ _ => rfl) (by decide) (by decide)

/-- Claim C9: the embedding of load_model is total over every loader
behaviour, so no raised loader exception escapes it: from the initial
state it returns True exactly on loader success, and on any loader
failure it returns False with the model field still None, the handle
still not loaded, and every subsequent predict still rejected with the
not-loaded error. -/
theorem load_model_never_raises (loader : Except PyError YOLOModel) :
    (∀ m, loader = .ok m →
      ObjectDetector.load_model loader ObjectDetector.init =
        (true, { model := some m, model_name := settings.model_name })) ∧
    (∀ e, loader = .error e →
      ObjectDetector.load_model loader ObjectDetector.init =
        (false, ObjectDetector.init) ∧
      (ObjectDetector.load_model loader ObjectDetector.init).2.model = none ∧
      ObjectDetector.is_loaded
        (ObjectDetector.load_model loader ObjectDetector.init).2 = false ∧
      ∀ (env : Env) (b : List ℕ) (ct it : Option ℚ),
        ObjectDetector.predict env
          (ObjectDetector.load_model loader ObjectDetector.init).2 b ct it =
          (.error notLoadedError, [])) := by
  cases loader with
  | ok m =>
      refine ⟨?_, ?_⟩
      · intro m1 hm1
        simp only [Except.ok.injEq] at hm1
        subst hm1
        rfl
      · intro e he
        exact absurd he (by simp)
  | error e =>
      refine ⟨?_, ?_⟩
      · intro m1 hm1
        exact absurd hm1 (by simp)
      · intro e1 _
        exact ⟨rfl, rfl, rfl, fun env b ct it => rfl⟩

/-- Witness for C9 at a concrete failing loader. -/
theorem load_model_never_raises_witness :
    ObjectDetector.load_model (.error (.generic "weights missing"))
      ObjectDetector.init = (false, ObjectDetector.init) ∧
    ObjectDetector.predict envOk
      (ObjectDetector.load_model (.error (.generic "weights missing"))
        ObjectDetector.init).2 [0] none none = (.error notLoadedError, []) :=
  ⟨((load_model_never_raises (.error (.generic "weights missing"))).2
      (.generic "weights missing") rfl).1,
   ((load_model_never_raises (.error (.generic "weights missing"))).2
      (.generic "weights missing") rfl).2.2.2 envOk [0] none none⟩

/-- Claim C10: once loaded and past decoding, the thresholds handed to
the detector are exactly the provided values when present and the
configured defaults only when the argument is None; the defaults are
one half and nine twentieths, and a provided zero is used as given,
not replaced by the default. -/
theorem defaults_only_for_none (env : Env) (s : ObjectDetector) (m : YOLOModel)
    (image_bytes : List ℕ) (ct it : Option ℚ) (img : PILImage)
    (hm : s.model = some m) (hd : process_image env image_bytes = .ok img) :
    (ObjectDetector.predict env s image_bytes ct it).2 =
      [.decodeCall image_bytes,
       .inferCall (ct.getD settings.confidence_threshold)
         (it.getD settings.iou_threshold)] ∧
    settings.confidence_threshold = 1/2 ∧ settings.iou_threshold = 9/20 ∧
    (some (0:ℚ)).getD settings.confidence_threshold = 0 ∧
    (0:ℚ) ≠ settings.confidence_threshold := by
  refine ⟨?_, rfl, rfl, rfl, by norm_num [settings]⟩
  unfold ObjectDetector.predict
  rw [hm]
  dsimp only
  rw [hd]
  have hct : (match ct with
      | none => settings.confidence_threshold
      | some v => v) = ct.getD settings.confidence_threshold := by
    cases ct <;> rfl
  have hit : (match it with
      | none => settings.iou_threshold
      | some v => v) = it.getD settings.iou_threshold := by
    cases it <;> rfl
  rw [hct, hit]
  split
  · rename_i heq
    exact absurd heq (by simp)
  · split
    · rfl
    · split <;> rfl

/-- Witness for C10 with an explicitly provided zero confidence and an
absent IoU threshold. -/
theorem defaults_only_for_none_witness :
    (ObjectDetector.predict envOk sLoaded [0] (some 0) none).2 =
      [Event.decodeCall [0],
       Event.inferCall ((some (0:ℚ)).getD settings.confidence_threshold)
         ((none : Option ℚ).getD settings.iou_threshold)] ∧
    settings.confidence_threshold = 1/2 ∧ settings.iou_threshold = 9/20 ∧
    (some (0:ℚ)).getD settings.confidence_threshold = 0 ∧
    (0:ℚ) ≠ settings.confidence_threshold :=
  defaults_only_for_none envOk sLoaded { modelId := 1 } [0] (some 0) none
    pngImage rfl rfl

end ObjDet
